import Mathlib

/-!
A shallow embedding of the GlassBallots ai-service in Lean 4, used to check
the repository's natural-language specification against the code.

Embedded source files:
* `src/ai-service/analyst.py` — the `ProposalAnalyst` pipeline (lexical
  flagger, stakeholder detector, equity-concern elicitor, objective-fact
  extractor, neutral summarizer, orchestrator).
* `src/ai-service/app.py` — the Flask handlers `analyze_proposal` (single
  proposal) and `analyze_batch` (batch orchestrator).

External capabilities (the OpenAI chat client, Python's `json.loads` /
`json.dumps`) are not code of this repository; they are modelled as an
`Env` record of opaque functions that the pipeline is parameterised over.
Python string/character primitives (`str.strip`, `str.lstrip`, `str.lower`,
`str.split`, `c.isalnum`, and `re.search` of a `\b`-delimited escaped
literal) are modelled concretely over `List Char`, with ASCII character
classes.
-/

namespace GlassBallots

/- ## Python string primitives -/

/-- Python whitespace, as `str.strip()` with no argument removes it
(ASCII subset: space, tab, newline, carriage return, vertical tab,
form feed). -/
def isPySpace (c : Char) : Bool :=
  c == ' ' || c == '\t' || c == '\n' || c == '\r' || c == '\x0b' || c == '\x0c'

/-- Python `s.strip()`: remove leading and trailing whitespace. -/
def stripChars (l : List Char) : List Char :=
  ((l.dropWhile isPySpace).reverse.dropWhile isPySpace).reverse

/-- Python `s.strip()` on a `String`. -/
def pyStrip (s : String) : String :=
  String.mk (stripChars s.data)

/-- Python `sep.join(xs)`. -/
def py_join (sep : String) : List String → String
  | [] => ""
  | [x] => x
  | x :: y :: ys => x ++ sep ++ py_join sep (y :: ys)

/-- Python `s.split("\n")`: every occurrence of the separator splits,
empty pieces are kept, `""` yields `[""]`. -/
def splitLines : List Char → List (List Char)
  | [] => [[]]
  | c :: rest =>
    match splitLines rest with
    | [] => [[]]
    | r :: rs => if c = '\n' then [] :: r :: rs else (c :: r) :: rs

/-- Python `text.lower()` (ASCII case folding), as a character list. -/
def toLowerChars (s : String) : List Char :=
  s.data.map Char.toLower

/- ## The model of `re.search(r'\b' + re.escape(w) + r'\b', t)`

`re.escape` makes the vocabulary entry a literal, so the pattern matches an
occurrence of `w` in `t` whose two ends are word boundaries: positions where
the character to the left and the character to the right differ in
word-character-ness (a word character is `[a-zA-Z0-9_]`; beyond either end
of the string counts as a non-word character). -/

/-- A regex word character (`\w`, ASCII). -/
def isWordChar (c : Char) : Bool :=
  c.isAlphanum || c == '_'

/-- Word-character-ness of an optional character; the absent character
(beyond the ends of the string) is not a word character. -/
def wordAt : Option Char → Bool
  | none => false
  | some c => isWordChar c

/-- The pattern `\b w \b` (for a literal `w`) matches `t` at position `i`. -/
def matchAt (t w : List Char) (i : Nat) : Bool :=
  ((t.drop i).take w.length == w)
    && (wordAt (t.take i).getLast? != wordAt w.head?)
    && (wordAt w.getLast? != wordAt (t.drop (i + w.length)).head?)

/-- Whether `re.search(r'\b' + re.escape(w) + r'\b', t)` finds a match somewhere. -/
def re_word_search (w : String) (t : List Char) : Bool :=
  (List.range (t.length + 1)).any (matchAt t w.data)

/- ## ProposalAnalyst: fixed vocabularies and the two lexical scanners
(analyst.py lines 31–108) -/

/-- The fixed vocabulary `ProposalAnalyst.LOADED_WORDS`. -/
def LOADED_WORDS : List String :=
  ["disastrous", "unprecedented", "clearly", "obviously",
   "everyone knows", "without a doubt", "terrible", "perfect",
   "absolutely", "catastrophic", "revolutionary", "game-changing",
   "undeniable", "irrefutable", "certainly", "inevitably"]

/-- The fixed vocabulary `ProposalAnalyst.STAKEHOLDER_GROUPS`. -/
def STAKEHOLDER_GROUPS : List String :=
  ["commuter students", "international students", "adjunct faculty",
   "full-time faculty", "part-time students", "graduate students",
   "undergraduate students", "administrative staff", "support staff",
   "disabled students", "minority students", "low-income students",
   "local community", "alumni", "parents"]

/-- Method `_find_loaded_language` of `ProposalAnalyst`: lowercase the text, then keep
every vocabulary entry whose `\b`-delimited pattern occurs, in vocabulary
order. -/
def find_loaded_language (text : String) : List String :=
  LOADED_WORDS.filter (fun w => re_word_search w (toLowerChars text))

/-- Method `_find_stakeholders` of `ProposalAnalyst`: same algorithm over the
stakeholder vocabulary. -/
def find_stakeholders (text : String) : List String :=
  STAKEHOLDER_GROUPS.filter (fun w => re_word_search w (toLowerChars text))

/- ## JSON values, chat requests, Python errors and the external environment -/

/-- A parsed JSON value, as Python's `json.loads` produces one
(numbers as integers suffice for this development). -/
inductive Json where
  | null
  | bool (b : Bool)
  | num (n : Int)
  | str (s : String)
  | arr (elems : List Json)
  | obj (fields : List (String × Json))

/-- Whether a parsed JSON value is an object holding key `k`. -/
def Json.hasKey : Json → String → Bool
  | .obj fields, k => fields.any (fun f => f.1 == k)
  | _, _ => false

/-- One role-tagged message of a chat-completion request. -/
structure ChatMessage where
  role : String
  content : String
deriving DecidableEq

/-- The informational content of a `client.chat.completions.create` call:
the message list and whether `response_format={"type": "json_object"}` was
requested. (The model name and the sampling parameters are fixed constants
in the source and carry no data dependence.) -/
structure ChatRequest where
  messages : List ChatMessage
  jsonMode : Bool
deriving DecidableEq

/-- A Python exception as the pipeline can raise one: an OpenAI client
failure, or `json.JSONDecodeError` — which is a `ValueError` subclass, the
distinction `app.py`'s handlers branch on. -/
inductive PyError where
  | apiError (m : String)
  | jsonDecodeError (m : String)
deriving DecidableEq

/-- Python `str(e)`. -/
def PyError.msg : PyError → String
  | .apiError m => m
  | .jsonDecodeError m => m

/-- Whether `except ValueError` catches the exception
(`json.JSONDecodeError` subclasses `ValueError`). -/
def PyError.isValueError : PyError → Bool
  | .apiError _ => false
  | .jsonDecodeError _ => true

/-- The external capabilities the pipeline calls, none of which are code of
this repository: the OpenAI chat completion (returning the response's
message content, or failing), Python's `json.loads` (returning a parsed
value, or raising a `JSONDecodeError` with some message) and Python's
`json.dumps(·, indent=2)`. -/
structure Env where
  chat : ChatRequest → Except String String
  jsonLoads : String → Except String Json
  dumps : Json → String

/- ## Prompt construction (analyst.py lines 110–259) -/

/-- The field `stakeholders_str = ", ".join(stakeholders) if stakeholders
else "no specific groups"` (analyst.py line 121). -/
def stakeholdersField (stakeholders : List String) : String :=
  if stakeholders.isEmpty then "no specific groups" else py_join ", " stakeholders

/-- The fixed text of the equity-concerns prompt before the stakeholder
field. -/
def concernsPromptA : String :=
  "You are an equity and fairness analyst reviewing a proposal.\n\nThe proposal mentions the following stakeholder groups: "

/-- The fixed text of the equity-concerns prompt after the stakeholder
field, wrapping the raw proposal text. -/
def concernsPromptB (text : String) : String :=
  "\n\nProposal text:\n" ++ text ++
  "\n\nBased on the stakeholder groups mentioned (or not mentioned), identify potential equity concerns that may not be adequately addressed in this proposal. Consider:\n\n1. Which groups might be disproportionately affected but are not mentioned?\n2. What access or resource disparities might this proposal create or perpetuate?\n3. What unintended consequences might affect marginalized or underrepresented groups?\n4. What questions should decision-makers ask to ensure fairness?\n\nProvide 3-5 specific, actionable questions or concerns for consideration. Format your response as a numbered list."

/-- The user prompt of `_get_unspoken_concerns` (analyst.py lines 123–137). -/
def concernsPrompt (text : String) (stakeholders : List String) : String :=
  concernsPromptA ++ stakeholdersField stakeholders ++ concernsPromptB text

/-- The system message of `_get_unspoken_concerns`. -/
def concernsSystem : String :=
  "You are an expert in equity analysis and social justice, focused on identifying potential fairness concerns in institutional policies and proposals."

/-- The chat request `_get_unspoken_concerns` sends. -/
def concernsRequest (text : String) (stakeholders : List String) : ChatRequest :=
  { messages := [⟨"system", concernsSystem⟩, ⟨"user", concernsPrompt text stakeholders⟩],
    jsonMode := false }

/-- The user prompt of `_extract_objective_facts` (analyst.py lines
171–201). -/
def factsPrompt (text : String) : String :=
  "You are a fact extraction system. Your job is to extract ONLY objective, verifiable facts from the following proposal text.\n\nIGNORE all of the following:\n- Persuasive language\n- Emotional appeals\n- Opinions or value judgments\n- Predictions or speculative statements\n- Loaded or biased language\n\nExtract and return ONLY:\n- The main objective or goal (stated factually)\n- Key actions or steps proposed\n- Specific numbers, dates, or quantitative data\n- Concrete resources or costs mentioned\n- Specific entities, locations, or groups named\n\nProposal text:\n" ++ text ++
  "\n\nYou MUST respond with a valid JSON object using this exact structure:\n\x7b\n  \"main_objective\": \"The primary goal stated in the proposal\",\n  \"key_actions\": [\"Action 1\", \"Action 2\", \"Action 3\"],\n  \"quantitative_data\": \x7b\"item\": \"value\"\x7d,\n  \"cost\": \"Specific cost if mentioned, or \x27not specified\x27\",\n  \"timeline\": \"Specific timeline if mentioned, or \x27not specified\x27\",\n  \"target_groups\": [\"Group 1\", \"Group 2\"],\n  \"resources_required\": [\"Resource 1\", \"Resource 2\"]\n\x7d\n\nReturn ONLY the JSON object, no other text."

/-- The system message of `_extract_objective_facts`. -/
def factsSystem : String :=
  "You are a fact extraction system that returns only valid JSON. You ignore all persuasive language and extract only objective, verifiable facts."

/-- The chat request `_extract_objective_facts` sends (with
`response_format={"type": "json_object"}`). -/
def factsRequest (text : String) : ChatRequest :=
  { messages := [⟨"system", factsSystem⟩, ⟨"user", factsPrompt text⟩],
    jsonMode := true }

/-- The user prompt of `_generate_neutral_summary` (analyst.py lines
234–246), a function of the serialized facts alone. -/
def summaryPrompt (facts_str : String) : String :=
  "You are a neutral summarizer. Using ONLY the objective facts provided below, write a clear, plain-language summary of this proposal.\n\nYour summary must:\n- Be written in neutral, factual language\n- Avoid all persuasive or emotional language\n- State only what is proposed, not why it should be approved\n- Be 3-5 sentences long\n- Be accessible to a general audience\n\nObjective facts:\n" ++ facts_str ++
  "\n\nWrite a neutral summary based solely on these facts:"

/-- The system message of `_generate_neutral_summary`. -/
def summarySystem : String :=
  "You are a neutral summarizer who writes clear, factual summaries without bias, persuasion, or emotional language."

/-- The chat request `_generate_neutral_summary` sends: it is built from the
facts record alone (serialized with `json.dumps(facts_json, indent=2)`) —
the raw proposal text, the loaded-language flags and the equity concerns do
not occur in its type. -/
def summaryRequest (env : Env) (facts_json : Json) : ChatRequest :=
  { messages := [⟨"system", summarySystem⟩, ⟨"user", summaryPrompt (env.dumps facts_json)⟩],
    jsonMode := false }

/- ## Response parsing of the equity-concern stage (analyst.py 149–156) -/

/-- The characters `lstrip('0123456789.-)• ')` removes from the front of a
line. -/
def isEnumChar (c : Char) : Bool :=
  c.isDigit || c == '.' || c == '-' || c == ')' || c == '•' || c == ' '

/-- Python `line.strip().lstrip('0123456789.-)• ').strip()`. -/
def enumStrip (line : List Char) : List Char :=
  stripChars ((stripChars line).dropWhile isEnumChar)

/-- The list comprehension of `_get_unspoken_concerns`: split the response
into lines, keep a line iff its stripped form is non-empty and the original
line has an alphanumeric character, and map each kept line to its
marker-stripped form. -/
def parse_concerns (concerns_text : String) : List String :=
  ((splitLines concerns_text.data).filter
      (fun line => !(stripChars line).isEmpty && line.any Char.isAlphanum)).map
    (fun line => String.mk (enumStrip line))

/- ## The three generative stages (analyst.py 110–259) -/

/-- Method `_get_unspoken_concerns` of `ProposalAnalyst`: call the chat capability and
parse the stripped response into the concerns list. -/
def get_unspoken_concerns (env : Env) (text : String) (stakeholders : List String) :
    Except PyError (List String) :=
  match env.chat (concernsRequest text stakeholders) with
  | .error m => .error (.apiError m)
  | .ok content => .ok (parse_concerns (pyStrip content))

/-- Method `_extract_objective_facts` of `ProposalAnalyst`: call the chat capability and
return `json.loads` of the stripped response — note that the parsed value is
returned as-is, with no check of its keys or shape. -/
def extract_objective_facts (env : Env) (text : String) : Except PyError Json :=
  match env.chat (factsRequest text) with
  | .error m => .error (.apiError m)
  | .ok content =>
    match env.jsonLoads (pyStrip content) with
    | .error m => .error (.jsonDecodeError m)
    | .ok facts_json => .ok facts_json

/-- Method `_generate_neutral_summary` of `ProposalAnalyst`: call the chat capability on
the facts-only request and return the stripped response. -/
def generate_neutral_summary (env : Env) (facts_json : Json) : Except PyError String :=
  match env.chat (summaryRequest env facts_json) with
  | .error m => .error (.apiError m)
  | .ok content => .ok (pyStrip content)

/-- The aggregate `ProposalAnalyst.analyze` returns (its result dictionary,
with the nested `bias_report` flattened into named fields). -/
structure AnalysisResult where
  neutral_summary : String
  loaded_language_flags : List String
  stakeholders_mentioned : List String
  questions_for_consideration : List String
  objective_facts : Json

/-- Method `analyze` of `ProposalAnalyst` (analyst.py 261–304): the five stages in
source order; any stage failure (a raised exception) propagates, aborting
the later stages. -/
def ProposalAnalyst.analyze (env : Env) (proposal_text : String) :
    Except PyError AnalysisResult :=
  let loaded_language := find_loaded_language proposal_text
  let stakeholders := find_stakeholders proposal_text
  match get_unspoken_concerns env proposal_text stakeholders with
  | .error e => .error e
  | .ok equity_concerns =>
    match extract_objective_facts env proposal_text with
    | .error e => .error e
    | .ok objective_facts =>
      match generate_neutral_summary env objective_facts with
      | .error e => .error e
      | .ok neutral_summary =>
        .ok ⟨neutral_summary, loaded_language, stakeholders, equity_concerns, objective_facts⟩

/- ## app.py: the single-proposal handler -/

/-- The JSON body and status the `/analyze` route returns. `success` is
`none` when the body carries no `success` field (the early validation
returns), `details` is `none` when the body carries no `details` field and
`some none` when it carries `details: null`. -/
structure SingleHttpResponse where
  status : Nat
  success : Option Bool
  error : Option String
  details : Option (Option String)
  body : Option AnalysisResult

/-- Handler `analyze_proposal` (app.py 64–141). `textField` is the request body's
`text` field, `none` when absent; `debug` is `os.getenv('DEBUG') ==
'true'`. Validation: missing field, then `not proposal_text or
len(proposal_text.strip()) < 50`, then `len(proposal_text) > 50000`; then
the pipeline runs, `ValueError`s are echoed with status 400 and other
exceptions yield a generic 500 with debug-gated details. -/
def analyze_proposal (env : Env) (debug : Bool) (textField : Option String) :
    SingleHttpResponse :=
  match textField with
  | none => ⟨400, none, some "Missing required field: text", none, none⟩
  | some proposal_text =>
    if proposal_text = "" ∨ (stripChars proposal_text.data).length < 50 then
      ⟨400, none, some "Proposal text must be at least 50 characters long", none, none⟩
    else if proposal_text.length > 50000 then
      ⟨400, none, some "Proposal text must be less than 50,000 characters", none, none⟩
    else
      match ProposalAnalyst.analyze env proposal_text with
      | .ok results => ⟨200, some true, none, none, some results⟩
      | .error e =>
        if e.isValueError then
          ⟨400, some false, some e.msg, none, none⟩
        else
          ⟨500, some false, some "Internal server error during analysis",
            some (if debug then some e.msg else none), none⟩

/- ## app.py: the batch handler -/

/-- One element of the `proposals` array: a JSON object that may or may not
carry `id` and `text` fields. -/
structure BatchProposal where
  id : Option Int
  text : Option String

/-- One element of the batch `results` array, in the three shapes the code
appends: a validation failure (note: no `id` field), a per-item pipeline
failure carrying `id` and `str(e)`, or a success carrying `id` and the
analysis. -/
inductive BatchItemResult where
  | missingFields (error : String)
  | failure (id : Int) (error : String)
  | success (id : Int) (body : AnalysisResult)

/-- The JSON body and status the `/analyze/batch` route returns. `success`
is `none` when the body carries no `success` field. -/
structure BatchHttpResponse where
  status : Nat
  success : Option Bool
  error : Option String
  results : Option (List BatchItemResult)

/-- The loop body of `analyze_batch` (app.py 180–205) for one proposal. -/
def batchItemOutcome (env : Env) (p : BatchProposal) : BatchItemResult :=
  match p.id, p.text with
  | some i, some t =>
    match ProposalAnalyst.analyze env t with
    | .ok analysis => .success i analysis
    | .error e => .failure i e.msg
  | _, _ => .missingFields "Each proposal must have id and text fields"

/-- Handler `analyze_batch` (app.py 144–210). `proposalsField` is the request
body's `proposals` field, `none` when absent or not an array. An oversized
batch is rejected before the loop; otherwise every item is processed in
order and the response is always `success: true` with status 200. -/
def analyze_batch (env : Env) (proposalsField : Option (List BatchProposal)) :
    BatchHttpResponse :=
  match proposalsField with
  | none => ⟨400, none, some "Missing or invalid field: proposals (must be an array)", none⟩
  | some proposals =>
    if proposals.length > 10 then
      ⟨400, none, some "Maximum 10 proposals per batch request", none⟩
    else
      ⟨200, some true, none, some (proposals.map (batchItemOutcome env))⟩

/- ## Instrumentation: the input of the summarizer stage

`summarizer_request env text` is the chat request `analyze` hands the
neutral-summarizer stage on input `text` (`none` when an earlier stage
fails, so the summarizer is never invoked). It mirrors the stage sequence
of `analyze` exactly; the lemma `analyze_ok_parts` below ties the two
together. -/
def summarizer_request (env : Env) (text : String) : Option ChatRequest :=
  match get_unspoken_concerns env text (find_stakeholders text) with
  | .error _ => none
  | .ok _ =>
    match extract_objective_facts env text with
    | .error _ => none
    | .ok facts_json => some (summaryRequest env facts_json)

/- ## Helper lemmas -/

theorem mem_dropWhile_of_mem {α : Type} {p : α → Bool} {c : α} :
    ∀ {l : List α}, c ∈ l → p c = false → c ∈ l.dropWhile p := by
  intro l
  induction l with
  | nil => intro h _; cases h
  | cons a as ih =>
    intro hc hp
    rw [List.dropWhile_cons]
    by_cases ha : p a = true
    · rw [if_pos ha]
      rcases List.mem_cons.mp hc with h | h
      · subst h; rw [hp] at ha; cases ha
      · exact ih h hp
    · rw [if_neg ha]; exact hc

theorem length_dropWhile_le {α : Type} (p : α → Bool) :
    ∀ l : List α, (l.dropWhile p).length ≤ l.length := by
  intro l
  induction l with
  | nil => exact Nat.le_refl 0
  | cons a as ih =>
    rw [List.dropWhile_cons]
    by_cases ha : p a = true
    · rw [if_pos ha]; exact Nat.le_succ_of_le ih
    · rw [if_neg ha]

theorem mem_stripChars {l : List Char} {c : Char} (hc : c ∈ l)
    (hs : isPySpace c = false) : c ∈ stripChars l := by
  unfold stripChars
  exact List.mem_reverse.mpr
    (mem_dropWhile_of_mem (List.mem_reverse.mpr (mem_dropWhile_of_mem hc hs)) hs)

theorem stripChars_length_le (l : List Char) : (stripChars l).length ≤ l.length := by
  unfold stripChars
  calc ((l.dropWhile isPySpace).reverse.dropWhile isPySpace).reverse.length
      = ((l.dropWhile isPySpace).reverse.dropWhile isPySpace).length :=
        List.length_reverse _
    _ ≤ (l.dropWhile isPySpace).reverse.length := length_dropWhile_le _ _
    _ = (l.dropWhile isPySpace).length := List.length_reverse _
    _ ≤ l.length := length_dropWhile_le _ _

theorem mem_enumStrip {l : List Char} {c : Char} (hc : c ∈ l)
    (hs : isPySpace c = false) (he : isEnumChar c = false) : c ∈ enumStrip l :=
  mem_stripChars (mem_dropWhile_of_mem (mem_stripChars hc hs) he) hs

theorem le_length_py_join (sep x : String) :
    ∀ xs : List String, x.length ≤ (py_join sep (x :: xs)).length := by
  intro xs
  cases xs with
  | nil => exact Nat.le_refl _
  | cons y ys =>
    show x.length ≤ (x ++ sep ++ py_join sep (y :: ys)).length
    rw [String.length_append, String.length_append]
    omega

/-- The search of `re.search(r'\b w \b', t)` succeeds exactly when `t`
decomposes around an occurrence of `w` with word boundaries at both ends. -/
theorem re_word_search_iff (w : String) (t : List Char) :
    re_word_search w t = true ↔
      ∃ pre post : List Char, t = pre ++ w.data ++ post ∧
        wordAt pre.getLast? ≠ wordAt w.data.head? ∧
        wordAt w.data.getLast? ≠ wordAt post.head? := by
  unfold re_word_search
  rw [List.any_eq_true]
  constructor
  · rintro ⟨i, _, hm⟩
    unfold matchAt at hm
    rw [Bool.and_eq_true, Bool.and_eq_true] at hm
    obtain ⟨⟨h1, h2⟩, h3⟩ := hm
    rw [beq_iff_eq] at h1
    rw [bne_iff_ne] at h2 h3
    have hsplit : t = t.take i ++ (w.data ++ t.drop (i + w.data.length)) := by
      conv_lhs => rw [← List.take_append_drop i t]
      congr 1
      conv_lhs => rw [← List.take_append_drop w.data.length (t.drop i)]
      rw [h1, List.drop_drop]
    refine ⟨t.take i, t.drop (i + w.data.length), ?_, h2, h3⟩
    rw [← List.append_assoc] at hsplit
    exact hsplit
  · rintro ⟨pre, post, ht, hb1, hb2⟩
    have e1 : (((pre ++ w.data) ++ post).drop pre.length).take w.data.length = w.data := by
      rw [List.append_assoc, List.drop_left, List.take_left]
    have e2 : ((pre ++ w.data) ++ post).take pre.length = pre := by
      rw [List.append_assoc, List.take_left]
    have e3 : ((pre ++ w.data) ++ post).drop (pre.length + w.data.length) = post := by
      rw [← List.length_append, List.drop_left]
    refine ⟨pre.length, ?_, ?_⟩
    · rw [List.mem_range]
      subst ht
      rw [List.length_append, List.length_append]
      omega
    · unfold matchAt
      subst ht
      rw [Bool.and_eq_true, Bool.and_eq_true]
      refine ⟨⟨beq_iff_eq.mpr e1, bne_iff_ne.mpr ?_⟩, bne_iff_ne.mpr ?_⟩
      · rw [e2]; exact hb1
      · rw [e3]; exact hb2

/-- The whole-word occurrence predicate the specification describes: the
lowercased text contains the vocabulary term with a word boundary at each
end. -/
def occursWholeWord (w : String) (text : String) : Prop :=
  ∃ pre post : List Char, toLowerChars text = pre ++ w.data ++ post ∧
    wordAt pre.getLast? ≠ wordAt w.data.head? ∧
    wordAt w.data.getLast? ≠ wordAt post.head?

/-- Dissecting a successful pipeline run into its stage equations. -/
theorem analyze_ok_parts {env : Env} {text : String} {r : AnalysisResult}
    (h : ProposalAnalyst.analyze env text = .ok r) :
    get_unspoken_concerns env text (find_stakeholders text) =
        .ok r.questions_for_consideration ∧
      extract_objective_facts env text = .ok r.objective_facts ∧
      generate_neutral_summary env r.objective_facts = .ok r.neutral_summary ∧
      r.loaded_language_flags = find_loaded_language text ∧
      r.stakeholders_mentioned = find_stakeholders text := by
  unfold ProposalAnalyst.analyze at h
  dsimp only at h
  split at h
  · cases h
  · split at h
    · cases h
    · split at h
      · cases h
      · cases h
        exact ⟨by assumption, by assumption, by assumption, rfl, rfl⟩

/-- An in-bounds batch always gets the 200 / `success: true` response with
the per-item outcome list. -/
theorem analyze_batch_ok (env : Env) (proposals : List BatchProposal)
    (h : proposals.length ≤ 10) :
    analyze_batch env (some proposals) =
      ⟨200, some true, none, some (proposals.map (batchItemOutcome env))⟩ := by
  simp only [analyze_batch]
  rw [if_neg (by omega)]

/- ## Concrete environments and inputs used by witnesses and counterexamples -/

/-- An environment whose capabilities all succeed: every chat call answers
`"ok"` and every response parses to the empty JSON object. -/
def envOk : Env :=
  { chat := fun _ => .ok "ok",
    jsonLoads := fun _ => .ok (Json.obj []),
    dumps := fun _ => "facts" }

/-- A provider-internal error message, of the kind the OpenAI client raises. -/
def apiMsg : String :=
  "Connection error: upstream request to api.openai.com failed with status 429"

/-- An environment whose chat capability always fails with `apiMsg`. -/
def envApiFail : Env :=
  { chat := fun _ => .error apiMsg,
    jsonLoads := fun _ => .ok Json.null,
    dumps := fun _ => "facts" }

/-- The message of a `json.JSONDecodeError`. -/
def decodeMsg : String := "Expecting value: line 1 column 1 (char 0)"

/-- An environment whose chat succeeds but whose responses fail to parse as
JSON. -/
def envBadJson : Env :=
  { chat := fun _ => .ok "The plan is good",
    jsonLoads := fun _ => .error decodeMsg,
    dumps := fun _ => "facts" }

/-- An environment whose fact-extraction response parses to a JSON object
without the required `main_objective` key. -/
def envNoMain : Env :=
  { chat := fun _ => .ok "resp",
    jsonLoads := fun _ => .ok (Json.obj [("budget", Json.str "5000")]),
    dumps := fun _ => "facts" }

/-- A 49-character text. -/
def text49 : String := String.mk (List.replicate 49 'a')

/-- A 50-character text whose last character is a space, so its stripped
length is 49. -/
def padText : String := String.mk (List.replicate 49 'a' ++ [' '])

/-- A 60-character text with no surrounding whitespace. -/
def longText : String := String.mk (List.replicate 60 'a')

/-- An 11-item batch. -/
def itemsEleven : List BatchProposal := List.replicate 11 ⟨some 1, some "x"⟩

/-- A 2-item batch whose items will both fail under `envApiFail`. -/
def failItems : List BatchProposal := [⟨some 1, some "alpha"⟩, ⟨some 2, some "beta"⟩]

def batchT1 : String := "first proposal text"

def batchT2 : String := "second proposal text"

def batchT3 : String := "third proposal text"

/-- An environment that fails exactly the fact-extraction call for
`batchT2` and succeeds everywhere else. -/
def envSel : Env :=
  { chat := fun r => if r = factsRequest batchT2 then .error "boom" else .ok "ok",
    jsonLoads := fun _ => .ok (Json.obj []),
    dumps := fun _ => "facts" }

/-- A 3-item batch whose middle item fails under `envSel`. -/
def selItems : List BatchProposal :=
  [⟨some 1, some batchT1⟩, ⟨some 2, some batchT2⟩, ⟨some 3, some batchT3⟩]

/- ## The claims -/

/-- Claim C4: the Lexical Flagger returns exactly the loaded-vocabulary
terms occurring in the text as case-insensitive whole-word/phrase matches,
in vocabulary-definition order, each at most once; a text with no
vocabulary term yields `[]`, and a term occurring only as a substring of a
longer word ("disastrous" inside "disastrously") is not flagged. -/
theorem C4_lexical_flagger :
    (∀ text w, w ∈ find_loaded_language text ↔
      w ∈ LOADED_WORDS ∧ occursWholeWord w text) ∧
    (∀ text, (find_loaded_language text).Sublist LOADED_WORDS) ∧
    (∀ text, (find_loaded_language text).Nodup) ∧
    find_loaded_language "Fees rise while the council debates" = [] ∧
    find_loaded_language "They acted disastrously in this case" = [] ∧
    find_loaded_language "clearly a perfect plan, clearly sound" = ["clearly", "perfect"] := by
  refine ⟨?_, ?_, ?_, by decide, by decide, by decide⟩
  · intro text w
    unfold find_loaded_language occursWholeWord
    rw [List.mem_filter]
    exact and_congr_right fun _ => re_word_search_iff w (toLowerChars text)
  · intro text
    exact List.filter_sublist _
  · intro text
    exact List.Nodup.sublist (List.filter_sublist _) (by decide)

/-- Claim C5, counterexample: `padText` has exactly 50 characters, yet the
handler rejects it with the too-short validation error (the code checks
`len(text.strip()) < 50`, not `len(text) < 50`), refuting "a text of
exactly 50 characters is accepted". -/
theorem C5_counterexample :
    padText.length = 50 ∧
    analyze_proposal envOk false (some padText) =
      ⟨400, none, some "Proposal text must be at least 50 characters long", none, none⟩ :=
  ⟨by decide, rfl⟩

/-- Claim C5, amended: validation accepts exactly the texts whose
whitespace-stripped length is at least 50 and whose raw length is at most
50,000. Every 49-character text is rejected (stripping cannot lengthen),
over-50,000 texts are rejected, length failures are decided before any
pipeline stage or external call (the response is independent of the
environment), and any text passing both bounds reaches the pipeline. -/
theorem C5_length_validation_amended :
    (∀ env : Env, ∀ debug : Bool, ∀ text : String,
      (stripChars text.data).length < 50 →
      analyze_proposal env debug (some text) =
        ⟨400, none, some "Proposal text must be at least 50 characters long", none, none⟩) ∧
    (∀ env : Env, ∀ debug : Bool, ∀ text : String, text.length = 49 →
      analyze_proposal env debug (some text) =
        ⟨400, none, some "Proposal text must be at least 50 characters long", none, none⟩) ∧
    (∀ env : Env, ∀ debug : Bool, ∀ text : String,
      50 ≤ (stripChars text.data).length → text.length > 50000 →
      analyze_proposal env debug (some text) =
        ⟨400, none, some "Proposal text must be less than 50,000 characters", none, none⟩) ∧
    (∀ env env2 : Env, ∀ debug debug2 : Bool, ∀ text : String,
      (stripChars text.data).length < 50 ∨ text.length > 50000 →
      analyze_proposal env debug (some text) = analyze_proposal env2 debug2 (some text)) ∧
    (∀ env : Env, ∀ debug : Bool, ∀ text : String,
      50 ≤ (stripChars text.data).length → text.length ≤ 50000 →
      (analyze_proposal env debug (some text)).success ≠ none) := by
  have notshort : ∀ text : String, 50 ≤ (stripChars text.data).length →
      ¬(text = "" ∨ (stripChars text.data).length < 50) := by
    rintro text h50 (rfl | hlt)
    · revert h50; decide
    · omega
  have short : ∀ env : Env, ∀ debug : Bool, ∀ text : String,
      (stripChars text.data).length < 50 →
      analyze_proposal env debug (some text) =
        ⟨400, none, some "Proposal text must be at least 50 characters long", none, none⟩ := by
    intro env debug text h
    simp only [analyze_proposal]
    rw [if_pos (Or.inr h)]
  have long : ∀ env : Env, ∀ debug : Bool, ∀ text : String,
      50 ≤ (stripChars text.data).length → text.length > 50000 →
      analyze_proposal env debug (some text) =
        ⟨400, none, some "Proposal text must be less than 50,000 characters", none, none⟩ := by
    intro env debug text h50 hlong
    simp only [analyze_proposal]
    rw [if_neg (notshort text h50), if_pos hlong]
  refine ⟨short, ?_, long, ?_, ?_⟩
  · intro env debug text h
    refine short env debug text ?_
    have hle : (stripChars text.data).length ≤ text.data.length := stripChars_length_le _
    have hdl : text.data.length = text.length := rfl
    omega
  · intro env env2 debug debug2 text h
    by_cases hlt : (stripChars text.data).length < 50
    · rw [short env debug text hlt, short env2 debug2 text hlt]
    · have h50 : 50 ≤ (stripChars text.data).length := by omega
      have hlong : text.length > 50000 := by tauto
      rw [long env debug text h50 hlong, long env2 debug2 text h50 hlong]
  · intro env debug text h50 hle
    simp only [analyze_proposal]
    rw [if_neg (notshort text h50), if_neg (by omega)]
    split
    · intro h; cases h
    · split
      · intro h; cases h
      · intro h; cases h

/-- Claim C5, witness: the 49-character `text49` is rejected with the
too-short error, and the in-bounds `longText` reaches the pipeline. -/
theorem C5_witness :
    analyze_proposal envOk false (some text49) =
      ⟨400, none, some "Proposal text must be at least 50 characters long", none, none⟩ ∧
    (analyze_proposal envOk false (some longText)).success ≠ none :=
  ⟨C5_length_validation_amended.2.1 envOk false text49 (by decide),
   C5_length_validation_amended.2.2.2.2 envOk false longText (by decide) (by decide)⟩

/-- Claim C6, counterexample: on the response `"1."` the parser keeps the
line (its only character run is non-blank and `'1'` is alphanumeric) but
marker-stripping then erases everything, so the resulting list contains the
blank string `""` — refuting "every string in the resulting EquityConcerns
list is non-blank and contains alphanumeric content". -/
theorem C6_counterexample :
    parse_concerns "1." = [""] ∧ "".data.any Char.isAlphanum = false :=
  ⟨by decide, by decide⟩

/-- Claim C6, amended: the parser splits the response into lines, keeps
exactly the lines that are non-blank and contain alphanumeric content
(judged on the line before marker-stripping), strips leading enumeration
markers from the kept lines and preserves their order; a resulting string
can still be blank when the line's alphanumeric content was all enumeration
digits, but any kept line containing a character that is neither whitespace
nor an enumeration-marker character yields its (non-blank) stripped form in
the list. -/
theorem C6_concern_parsing_amended :
    (∀ s : String, (parse_concerns s).Sublist
      ((splitLines s.data).map (fun line => String.mk (enumStrip line)))) ∧
    (∀ s : String, ∀ x : String, x ∈ parse_concerns s ↔
      ∃ line, line ∈ splitLines s.data ∧
        (!(stripChars line).isEmpty && line.any Char.isAlphanum) = true ∧
        x = String.mk (enumStrip line)) ∧
    (∀ s : String, ∀ line : List Char, ∀ c : Char,
      line ∈ splitLines s.data → c ∈ line → isPySpace c = false →
      isEnumChar c = false → line.any Char.isAlphanum = true →
      String.mk (enumStrip line) ∈ parse_concerns s ∧
      String.mk (enumStrip line) ≠ "") := by
  refine ⟨?_, ?_, ?_⟩
  · intro s
    exact List.Sublist.map _ (List.filter_sublist _)
  · intro s x
    simp only [parse_concerns, List.mem_map, List.mem_filter]
    constructor
    · rintro ⟨line, ⟨hl, hp⟩, he⟩
      exact ⟨line, hl, hp, he.symm⟩
    · rintro ⟨line, hl, hp, he⟩
      exact ⟨line, ⟨hl, hp⟩, he.symm⟩
  · intro s line c hline hc hspace henum halnum
    have hmemstrip : c ∈ stripChars line := mem_stripChars hc hspace
    have hnonempty : (stripChars line).isEmpty = false := by
      cases h : (stripChars line).isEmpty
      · rfl
      · rw [List.isEmpty_iff] at h
        rw [h] at hmemstrip
        cases hmemstrip
    constructor
    · refine List.mem_map.mpr ⟨line, List.mem_filter.mpr ⟨hline, ?_⟩, rfl⟩
      rw [hnonempty, halnum]
      rfl
    · intro h
      have hdata : enumStrip line = [] := congrArg String.data h
      have : c ∈ enumStrip line := mem_enumStrip hc hspace henum
      rw [hdata] at this
      cases this

/-- Claim C6, witness: the kept line `"1. Ensure access"` contains the
letter `E` (neither whitespace nor a marker character), so its stripped
form is in the list and is non-blank. -/
theorem C6_witness :
    String.mk (enumStrip ("1. Ensure access").data) ∈ parse_concerns "1. Ensure access" ∧
    String.mk (enumStrip ("1. Ensure access").data) ≠ "" :=
  C6_concern_parsing_amended.2.2 "1. Ensure access" ("1. Ensure access").data 'E'
    (by decide) (by decide) (by decide) (by decide) (by decide)

/-- Claim C9: with an empty StakeholderMentions list the prompt of the
Equity Concern Elicitor contains the explicit marker "no specific groups"
in the stakeholder position; with a non-empty list it contains the
stakeholders joined in detected order; and for stakeholders drawn from the
fixed vocabulary that field is never the empty string. -/
theorem C9_stakeholder_field :
    (∀ text : String, ∃ a b : String,
      concernsPrompt text [] = a ++ "no specific groups" ++ b) ∧
    (∀ text : String, ∀ sts : List String, sts ≠ [] → ∃ a b : String,
      concernsPrompt text sts = a ++ py_join ", " sts ++ b) ∧
    (∀ text : String, ∀ sts : List String,
      (∀ x, x ∈ sts → x ∈ STAKEHOLDER_GROUPS) →
      concernsPrompt text sts =
        concernsPromptA ++ stakeholdersField sts ++ concernsPromptB text ∧
      stakeholdersField sts ≠ "") := by
  refine ⟨?_, ?_, ?_⟩
  · intro text
    exact ⟨concernsPromptA, concernsPromptB text, rfl⟩
  · intro text sts h
    cases sts with
    | nil => exact absurd rfl h
    | cons x xs => exact ⟨concernsPromptA, concernsPromptB text, rfl⟩
  · intro text sts hsub
    refine ⟨rfl, ?_⟩
    cases sts with
    | nil => decide
    | cons x xs =>
      have hx : x ∈ STAKEHOLDER_GROUPS := hsub x (List.mem_cons_self x xs)
      have hlen : 0 < x.length := by
        have hall : ∀ g, g ∈ STAKEHOLDER_GROUPS → 0 < g.length := by decide
        exact hall x hx
      have hjoin : x.length ≤ (py_join ", " (x :: xs)).length :=
        le_length_py_join ", " x xs
      intro hemp
      simp only [stakeholdersField, List.isEmpty_cons] at hemp
      rw [if_neg (by decide)] at hemp
      have : (py_join ", " (x :: xs)).length = 0 := by rw [hemp]; rfl
      omega

/-- Claim C9, witness: the concerns prompt for an empty stakeholder list
contains the marker, and for `["alumni", "parents"]` it contains
`"alumni, parents"` with a non-empty stakeholder field. -/
theorem C9_witness :
    (∃ a b : String, concernsPrompt "campus housing plan" [] =
      a ++ "no specific groups" ++ b) ∧
    (∃ a b : String, concernsPrompt "campus housing plan" ["alumni", "parents"] =
      a ++ py_join ", " ["alumni", "parents"] ++ b) ∧
    stakeholdersField ["alumni", "parents"] ≠ "" :=
  ⟨C9_stakeholder_field.1 "campus housing plan",
   C9_stakeholder_field.2.1 "campus housing plan" ["alumni", "parents"] (by decide),
   (C9_stakeholder_field.2.2 "campus housing plan" ["alumni", "parents"] (by decide)).2⟩

/-- Claim C8: a batch of more than 10 proposals is rejected with the
size-validation error, and the response does not depend on the environment
(no pipeline stage or external call runs for any item). -/
theorem C8_oversized_batch :
    ∀ env env2 : Env, ∀ items : List BatchProposal, items.length > 10 →
      analyze_batch env (some items) =
        ⟨400, none, some "Maximum 10 proposals per batch request", none⟩ ∧
      analyze_batch env (some items) = analyze_batch env2 (some items) := by
  intro env env2 items h
  have e : ∀ env3 : Env, analyze_batch env3 (some items) =
      ⟨400, none, some "Maximum 10 proposals per batch request", none⟩ := by
    intro env3
    simp only [analyze_batch]
    rw [if_pos h]
  exact ⟨e env, (e env).trans (e env2).symm⟩

/-- Claim C8, witness: an 11-item batch is rejected identically under a
fully-succeeding and a fully-failing environment. -/
theorem C8_witness :
    analyze_batch envOk (some itemsEleven) =
      ⟨400, none, some "Maximum 10 proposals per batch request", none⟩ ∧
    analyze_batch envOk (some itemsEleven) = analyze_batch envApiFail (some itemsEleven) :=
  C8_oversized_batch envOk envApiFail itemsEleven (by decide)

/-- Claim C10: a batch request passing the size and shape checks always
yields HTTP 200 with a top-level `success: true` and the full ordered
results list, however many individual items fail. -/
theorem C10_batch_top_level_success :
    ∀ env : Env, ∀ items : List BatchProposal, items.length ≤ 10 →
      (analyze_batch env (some items)).status = 200 ∧
      (analyze_batch env (some items)).success = some true ∧
      (analyze_batch env (some items)).results =
        some (items.map (batchItemOutcome env)) ∧
      (items.map (batchItemOutcome env)).length = items.length := by
  intro env items h
  rw [analyze_batch_ok env items h]
  exact ⟨rfl, rfl, rfl, by simp⟩

/-- Claim C10, witness: under `envApiFail` both items of `failItems` fail,
yet the top-level response is 200 / `success: true` carrying the 2-element
results list. -/
theorem C10_witness :
    (analyze_batch envApiFail (some failItems)).status = 200 ∧
    (analyze_batch envApiFail (some failItems)).success = some true ∧
    (analyze_batch envApiFail (some failItems)).results =
      some [.failure 1 apiMsg, .failure 2 apiMsg] := by
  have h := C10_batch_top_level_success envApiFail failItems (by decide)
  exact ⟨h.1, h.2.1, rfl⟩

/-- Claim C3, counterexample: the 1-item batch whose item has `id: 7` but
no `text` yields a validation-failure result that carries no id at all
(the code appends `{'success': False, 'error': ...}` without the id),
refuting "a failure result carrying the error and tagged with that item's
id" for missing-field validation failures. -/
theorem C3_counterexample :
    analyze_batch envOk (some [⟨some 7, none⟩]) =
      ⟨200, some true, none,
        some [.missingFields "Each proposal must have id and text fields"]⟩ ∧
    BatchItemResult.missingFields "Each proposal must have id and text fields" ≠
      BatchItemResult.failure 7 "Each proposal must have id and text fields" :=
  ⟨rfl, fun h => nomatch h⟩

/-- Claim C3, amended: an in-bounds batch yields a results list of the same
cardinality and order as the input; an item whose pipeline succeeds yields
a success result with its id, an item whose pipeline fails yields a failure
result carrying `str(e)` and tagged with its id, and an item missing `id`
or `text` yields an untagged validation-failure result (no id field);
processing always continues — one item's outcome never aborts the batch. -/
theorem C3_batch_isolation_amended :
    (∀ env : Env, ∀ items : List BatchProposal, items.length ≤ 10 →
      analyze_batch env (some items) =
        ⟨200, some true, none, some (items.map (batchItemOutcome env))⟩ ∧
      (items.map (batchItemOutcome env)).length = items.length) ∧
    (∀ env : Env, ∀ i : Int, ∀ t : String, ∀ r : AnalysisResult,
      ProposalAnalyst.analyze env t = .ok r →
      batchItemOutcome env ⟨some i, some t⟩ = .success i r) ∧
    (∀ env : Env, ∀ i : Int, ∀ t : String, ∀ e : PyError,
      ProposalAnalyst.analyze env t = .error e →
      batchItemOutcome env ⟨some i, some t⟩ = .failure i e.msg) ∧
    (∀ env : Env, ∀ p : BatchProposal, p.id = none ∨ p.text = none →
      batchItemOutcome env p =
        .missingFields "Each proposal must have id and text fields") := by
  refine ⟨?_, ?_, ?_, ?_⟩
  · intro env items h
    exact ⟨analyze_batch_ok env items h, by simp⟩
  · intro env i t r h
    simp [batchItemOutcome, h]
  · intro env i t e h
    simp [batchItemOutcome, h]
  · intro env p h
    obtain ⟨pid, ptext⟩ := p
    rcases h with h | h
    · cases h
      cases ptext <;> rfl
    · cases h
      cases pid <;> rfl

set_option maxRecDepth 100000 in
/-- Claim C3, witness: the specification's 3-item scenario — under `envSel`
item 2's fact-extraction call fails upstream; the batch yields a 3-element
ordered list where items 1 and 3 are successes with their ids and item 2
is a failure carrying its original id. -/
theorem C3_witness :
    analyze_batch envSel (some selItems) =
      ⟨200, some true, none,
        some [.success 1 ⟨"ok", [], [], ["ok"], Json.obj []⟩,
              .failure 2 "boom",
              .success 3 ⟨"ok", [], [], ["ok"], Json.obj []⟩]⟩ :=
  ((C3_batch_isolation_amended.1 envSel selItems (by decide)).1).trans (by rfl)

/-- Claim C2, counterexample: a fact-extraction response that parses to a
JSON object with no `main_objective` key is returned as-is by the stage —
the code performs no required-key validation after `json.loads` — refuting
"a response missing a required field is rejected as a schema violation and
the stage fails hard". -/
theorem C2_counterexample :
    extract_objective_facts envNoMain "Any proposal text" =
      .ok (Json.obj [("budget", Json.str "5000")]) ∧
    Json.hasKey (Json.obj [("budget", Json.str "5000")]) "main_objective" = false :=
  ⟨rfl, rfl⟩

/-- Claim C2, amended: the Objective Fact Extractor requires only that the
response text parse as JSON — a `json.loads` failure is a hard failure of
the stage and propagates up through the pipeline unrecovered, not patched
with defaults — but the parsed value is returned as-is with no
required-key check, so responses missing required fields (and responses
with extra keys) are accepted alike. -/
theorem C2_schema_amended :
    (∀ env : Env, ∀ text r : String, ∀ j : Json,
      env.chat (factsRequest text) = .ok r →
      env.jsonLoads (pyStrip r) = .ok j →
      extract_objective_facts env text = .ok j) ∧
    (∀ env : Env, ∀ text r m : String,
      env.chat (factsRequest text) = .ok r →
      env.jsonLoads (pyStrip r) = .error m →
      extract_objective_facts env text = .error (.jsonDecodeError m)) ∧
    (∀ env : Env, ∀ text : String, ∀ cs : List String, ∀ m : String,
      get_unspoken_concerns env text (find_stakeholders text) = .ok cs →
      extract_objective_facts env text = .error (.jsonDecodeError m) →
      ProposalAnalyst.analyze env text = .error (.jsonDecodeError m)) := by
  refine ⟨?_, ?_, ?_⟩
  · intro env text r j h1 h2
    simp [extract_objective_facts, h1, h2]
  · intro env text r m h1 h2
    simp [extract_objective_facts, h1, h2]
  · intro env text cs m h1 h2
    simp [ProposalAnalyst.analyze, h1, h2]

/-- Claim C2, witness: under `envOk` the parsed object (here the empty
object, which also lacks every required key) is accepted; under
`envBadJson` the parse failure is a hard stage failure that propagates out
of the whole pipeline. -/
theorem C2_witness :
    extract_objective_facts envOk "Any text" = .ok (Json.obj []) ∧
    extract_objective_facts envBadJson "Any text" =
      .error (.jsonDecodeError decodeMsg) ∧
    ProposalAnalyst.analyze envBadJson "Any text" =
      .error (.jsonDecodeError decodeMsg) := by
  refine ⟨?_, ?_, ?_⟩
  · exact C2_schema_amended.1 envOk "Any text" "ok" (Json.obj []) rfl rfl
  · exact C2_schema_amended.2.1 envBadJson "Any text" "The plan is good" decodeMsg rfl rfl
  · exact C2_schema_amended.2.2 envBadJson "Any text" ["The plan is good"] decodeMsg rfl
      (C2_schema_amended.2.1 envBadJson "Any text" "The plan is good" decodeMsg rfl rfl)

/-- Claim C7, counterexample: a per-item failure on the batch path carries
the raw provider-internal error string (`str(e)`), not a generic message —
refuting "reports a generic analysis-failed outcome ... without leaking
upstream provider error internals ... on both the single-proposal and the
batch path". -/
theorem C7_counterexample :
    analyze_batch envApiFail (some [⟨some 1, some "short"⟩]) =
      ⟨200, some true, none, some [.failure 1 apiMsg]⟩ ∧
    apiMsg ≠ "Internal server error during analysis" :=
  ⟨rfl, by decide⟩

/-- Claim C7, amended: stage failures propagate unrecovered to the
orchestrator boundary. On the single-proposal path a non-`ValueError`
failure (an API error) yields the generic 500 "Internal server error
during analysis" with diagnostic detail only in debug mode, but a
JSON-decode failure — being a `ValueError` — is echoed with its raw
message as a 400; on the batch path the per-item failure result carries
the raw `str(e)` of the failed item. -/
theorem C7_error_reporting_amended :
    (∀ env : Env, ∀ debug : Bool, ∀ text m : String,
      50 ≤ (stripChars text.data).length → text.length ≤ 50000 →
      ProposalAnalyst.analyze env text = .error (.apiError m) →
      analyze_proposal env debug (some text) =
        ⟨500, some false, some "Internal server error during analysis",
          some (if debug then some m else none), none⟩) ∧
    (∀ env : Env, ∀ debug : Bool, ∀ text m : String,
      50 ≤ (stripChars text.data).length → text.length ≤ 50000 →
      ProposalAnalyst.analyze env text = .error (.jsonDecodeError m) →
      analyze_proposal env debug (some text) =
        ⟨400, some false, some m, none, none⟩) ∧
    (∀ env : Env, ∀ i : Int, ∀ t : String, ∀ e : PyError,
      ProposalAnalyst.analyze env t = .error e →
      batchItemOutcome env ⟨some i, some t⟩ = .failure i e.msg) := by
  have notshort : ∀ text : String, 50 ≤ (stripChars text.data).length →
      ¬(text = "" ∨ (stripChars text.data).length < 50) := by
    rintro text h50 (rfl | hlt)
    · revert h50; decide
    · omega
  refine ⟨?_, ?_, ?_⟩
  · intro env debug text m h50 hle h
    simp only [analyze_proposal]
    rw [if_neg (notshort text h50), if_neg (by omega), h]
    rfl
  · intro env debug text m h50 hle h
    simp only [analyze_proposal]
    rw [if_neg (notshort text h50), if_neg (by omega), h]
    rfl
  · intro env i t e h
    simp [batchItemOutcome, h]

/-- Claim C7, witness: under `envApiFail` the single path (debug on)
returns the generic 500 with the diagnostic in `details`; under
`envBadJson` the single path echoes the decode message as a 400; the batch
item outcome carries the raw provider message. -/
theorem C7_witness :
    analyze_proposal envApiFail true (some longText) =
      ⟨500, some false, some "Internal server error during analysis",
        some (some apiMsg), none⟩ ∧
    analyze_proposal envBadJson false (some longText) =
      ⟨400, some false, some decodeMsg, none, none⟩ ∧
    batchItemOutcome envApiFail ⟨some 5, some "x"⟩ = .failure 5 apiMsg := by
  refine ⟨?_, ?_, ?_⟩
  · exact C7_error_reporting_amended.1 envApiFail true longText apiMsg
      (by decide) (by decide) rfl
  · exact C7_error_reporting_amended.2.1 envBadJson false longText decodeMsg
      (by decide) (by decide) rfl
  · exact C7_error_reporting_amended.2.2 envApiFail 5 "x" (.apiError apiMsg) rfl

/-- Claim C1: the Neutral Summarizer's input is a function of
ObjectiveFacts alone. `summaryRequest` is built from the facts record only
(never from the raw text, the loaded-language flags or the equity
concerns, which do not occur in its type), and on any two pipeline runs
whose fact stages agree the summarizer receives identical input and — the
chat capability being a function of its request — produces identical
summaries. -/
theorem C1_summarizer_isolation :
    ∀ env : Env, ∀ t1 t2 : String, ∀ r1 r2 : AnalysisResult,
      ProposalAnalyst.analyze env t1 = .ok r1 →
      ProposalAnalyst.analyze env t2 = .ok r2 →
      r1.objective_facts = r2.objective_facts →
      summarizer_request env t1 = some (summaryRequest env r1.objective_facts) ∧
      summarizer_request env t1 = summarizer_request env t2 ∧
      r1.neutral_summary = r2.neutral_summary := by
  intro env t1 t2 r1 r2 h1 h2 hf
  obtain ⟨hc1, hx1, hs1, _, _⟩ := analyze_ok_parts h1
  obtain ⟨hc2, hx2, hs2, _, _⟩ := analyze_ok_parts h2
  have e1 : summarizer_request env t1 = some (summaryRequest env r1.objective_facts) := by
    simp [summarizer_request, hc1, hx1]
  have e2 : summarizer_request env t2 = some (summaryRequest env r2.objective_facts) := by
    simp [summarizer_request, hc2, hx2]
  refine ⟨e1, ?_, ?_⟩
  · rw [e1, e2, hf]
  · rw [hf] at hs1
    exact Except.ok.inj (hs1.symm.trans hs2)

/-- Claim C1, witness: two different raw texts that reduce to the same
facts object give the summarizer identical input. -/
theorem C1_witness :
    summarizer_request envOk "alpha beta" = summarizer_request envOk "gamma delta" ∧
    summarizer_request envOk "alpha beta" = some (summaryRequest envOk (Json.obj [])) := by
  have h := C1_summarizer_isolation envOk "alpha beta" "gamma delta"
    ⟨"ok", [], [], ["ok"], Json.obj []⟩ ⟨"ok", [], [], ["ok"], Json.obj []⟩ rfl rfl rfl
  exact ⟨h.2.1, h.1⟩

end GlassBallots
